import Mathlib

/-!
Verification of the shrimp-farm water-quality decision pipeline.

This file is a shallow embedding, in Lean 4, of the parts of the repository
that the specification's claims are about:

* `models.py` / `models/decision_outputs.py` — the data model
  (`WaterQualityData`, `FeedData`, `EnergyData`, `LaborData`,
  `DecisionOutput`, `MultiPondDecision`, the status / action enums);
* `config.py` — `FARM_CONFIG` (the optimal ranges actually used by the agent);
* `models/simple_decision_agent.py` — `SimpleDecisionAgent` (rule tier):
  `_score_urgency`, `_select_actions`, `_recommended_equipment_levels`,
  `_recommended_feed_per_serving_g`, `_rule_confidence`, `make_decision`,
  `make_multi_pond_decisions`;
* `predict_api.py` — `dashboard_predict_all`, `_process_sample_and_persist`,
  `save_sample_to_db` (modelled as an effect flag), `ConnectionManager.broadcast`.

Modelling conventions:
* Python floats are embedded as `ℚ` (the scorer only performs field
  arithmetic and comparisons, so exact rationals refine IEEE semantics for
  the claims below, which are about exact thresholds and exact shares).
* Python ints (pond ids, counts) are embedded as `ℤ`.
* `timestamp` fields (`datetime.now()` / utcnow) carry no information used
  by any claim and are omitted from the embedded records.
* Python dicts keyed by pond id are embedded as association lists in
  insertion order; re-assigning an existing key keeps its position and
  overwrites the value (in `make_multi_pond_decisions` a duplicate pond id
  re-writes the *same* decision value, so the dict equals the association
  list over the first occurrences of the ids).
* The f-string reason messages interpolate a sensor reading into a fixed
  template; no claim depends on the interpolated digits, so the embedded
  messages keep the template text only.
-/

instance {ε α : Type} [DecidableEq ε] [DecidableEq α] :
    DecidableEq (Except ε α) := fun x y =>
  match x, y with
  | .ok a, .ok b =>
    if h : a = b then .isTrue (by rw [h])
    else .isFalse (fun hh => by cases hh; exact h rfl)
  | .error a, .error b =>
    if h : a = b then .isTrue (by rw [h])
    else .isFalse (fun hh => by cases hh; exact h rfl)
  | .ok _, .error _ => .isFalse (fun hh => by cases hh)
  | .error _, .ok _ => .isFalse (fun hh => by cases hh)

/-- `models.py` `WaterQualityStatus` (string enum). -/
inductive WaterQualityStatus
  | excellent
  | good
  | fair
  | poor
  | critical
deriving DecidableEq, Repr

/-- `WaterQualityStatus.value` — the underlying string of the Python enum. -/
def WaterQualityStatus.value : WaterQualityStatus → String
  | .excellent => "excellent"
  | .good => "good"
  | .fair => "fair"
  | .poor => "poor"
  | .critical => "critical"

/-- `models/decision_outputs.py` `ActionType` (string enum). -/
inductive ActionType
  | NO_ACTION
  | INCREASE_AERATION
  | DECREASE_AERATION
  | WATER_EXCHANGE
  | ADJUST_FEED
  | EMERGENCY_RESPONSE
  | ALLOCATE_WORKERS
  | EQUIPMENT_MAINTENANCE
  | MONITOR_CLOSELY
deriving DecidableEq, Repr

/-- `models.py` `WaterQualityData` (fields used by the decision agent). -/
structure WaterQualityData where
  pond_id : ℤ
  ph : ℚ
  temperature : ℚ
  dissolved_oxygen : ℚ
  salinity : ℚ
  ammonia : ℚ
  nitrite : ℚ
  nitrate : ℚ
  turbidity : ℚ
  status : WaterQualityStatus
deriving DecidableEq

/-- `models.py` `FeedData` (fields used by the decision agent). -/
structure FeedData where
  pond_id : ℤ
  shrimp_count : ℤ
  average_weight : ℚ
  feed_amount : ℚ
  feeding_frequency : ℤ
deriving DecidableEq

/-- `models.py` `EnergyData` (fields used by the decision agent). -/
structure EnergyData where
  pond_id : ℤ
  total_energy : ℚ
  cost : ℚ
  efficiency_score : ℚ
deriving DecidableEq

/-- `models.py` `LaborData` (fields used by the decision agent). -/
structure LaborData where
  pond_id : ℤ
  worker_count : ℤ
  efficiency_score : ℚ
  next_tasks : List String
deriving DecidableEq

/-- `models/decision_outputs.py` `DecisionOutput` (timestamp omitted). -/
structure DecisionOutput where
  pond_id : ℤ
  primary_action : ActionType
  action_intensity : ℚ
  secondary_actions : List ActionType
  priority_rank : ℤ
  urgency_score : ℚ
  recommended_feed_amount : Option ℚ
  recommended_aerator_level : Option ℚ
  recommended_pump_level : Option ℚ
  recommended_heater_level : Option ℚ
  confidence : ℚ
  reasoning : String
  affected_factors : List String
deriving DecidableEq

/-- `models/decision_outputs.py` `MultiPondDecision` (timestamp omitted);
the Python dicts are embedded as association lists in insertion order. -/
structure MultiPondDecision where
  pond_priorities : List (ℤ × ℕ)
  urgent_ponds : List ℤ
  recommended_actions : List (ℤ × DecisionOutput)
  overall_urgency : ℚ
  resource_allocation : List (String × ℚ)
deriving DecidableEq

/-- `config.py` `FARM_CONFIG["optimal_ph_range"] = (7.5, 8.5)`. -/
def optimal_ph_range : ℚ × ℚ := (15/2, 17/2)

/-- `config.py` `FARM_CONFIG["optimal_temperature_range"] = (26, 30)`. -/
def optimal_temperature_range : ℚ × ℚ := (26, 30)

/-- `config.py` `FARM_CONFIG["optimal_dissolved_oxygen"] = 2.2`.
Note: the key *is* present in `FARM_CONFIG`, so the agent's fallback
default of `5.5` in `FARM_CONFIG.get("optimal_dissolved_oxygen", 5.5)`
is never used; the agent runs with `do_min = 2.2`. -/
def optimal_dissolved_oxygen : ℚ := 11/5

/-- `simple_decision_agent.py` `_OptimalTargets`. -/
structure OptimalTargets where
  ph_min : ℚ
  ph_max : ℚ
  temp_min : ℚ
  temp_max : ℚ
  do_min : ℚ
deriving DecidableEq

/-- `SimpleDecisionAgent.__init__`: targets read from `FARM_CONFIG`. -/
def agentTargets : OptimalTargets :=
  { ph_min := optimal_ph_range.1
    ph_max := optimal_ph_range.2
    temp_min := optimal_temperature_range.1
    temp_max := optimal_temperature_range.2
    do_min := optimal_dissolved_oxygen }

/-- Python `max(0.0, min(1.0, x))`. -/
def clamp01 (x : ℚ) : ℚ := max 0 (min 1 x)

/-- First-occurrence de-duplication, the semantics of
`[x for x in xs if not (x in seen or seen.add(x))]` and of Python dict
key insertion order. -/
def firstOccur {α : Type} [DecidableEq α] : List α → List α
  | [] => []
  | x :: xs => x :: firstOccur (xs.filter (fun y => y ≠ x))
termination_by l => l.length
decreasing_by
  exact Nat.lt_succ_of_le (List.length_filter_le _ _)

/-- Association-list lookup by key (Python `dict[k]` / `dict.get(k)`),
returning the value at the first matching key. -/
def findVal {κ β : Type} [DecidableEq κ] (k : κ) : List (κ × β) → Option β
  | [] => none
  | e :: rest => if e.1 = k then some e.2 else findVal k rest

/-- The status → weight table of `_score_urgency`
(`{"excellent": 0.0, "good": 0.05, "fair": 0.2, "poor": 0.4,
"critical": 0.65}`; the `.get` default `0.2` is unreachable because the
enum has exactly these five values). -/
def statusWeight : WaterQualityStatus → ℚ
  | .excellent => 0
  | .good => 1/20
  | .fair => 1/5
  | .poor => 2/5
  | .critical => 13/20

/-- The six guard conditions of `_score_urgency`, named so the theorems
below can refer to them.  `statusFires` is `status_weight > 0`. -/
def statusFires (wq : WaterQualityData) : Prop := statusWeight wq.status > 0

instance (wq : WaterQualityData) : Decidable (statusFires wq) :=
  inferInstanceAs (Decidable (statusWeight wq.status > 0))

/-- The DO contribution of `_score_urgency`:
`min(0.5, (do_min − DO)/do_min × 0.5)` when `DO < do_min` (with
`do_min = 2.2` from `FARM_CONFIG`), else `0`. -/
def doBump (wq : WaterQualityData) : ℚ :=
  if wq.dissolved_oxygen < agentTargets.do_min then
    min (1/2) ((agentTargets.do_min - wq.dissolved_oxygen) / agentTargets.do_min * (1/2))
  else 0

/-- The ammonia contribution: `min(0.5, (ammonia − 0.2)/0.8 × 0.5)` when
`ammonia > 0.2`, else `0`. -/
def ammoniaBump (wq : WaterQualityData) : ℚ :=
  if wq.ammonia > 1/5 then min (1/2) ((wq.ammonia - 1/5) / (4/5) * (1/2)) else 0

/-- The temperature contribution: `min(0.3, Δ/10 × 0.3)` where `Δ` is the
distance to the nearest bound of `[26, 30]`, when outside the range. -/
def tempBump (wq : WaterQualityData) : ℚ :=
  if wq.temperature < agentTargets.temp_min ∨ wq.temperature > agentTargets.temp_max then
    let nearest :=
      if wq.temperature < agentTargets.temp_min then agentTargets.temp_min
      else agentTargets.temp_max
    min (3/10) (|wq.temperature - nearest| / 10 * (3/10))
  else 0

/-- The efficiency contribution (used for both energy and labor):
`min(0.2, (0.7 − eff) × 0.4)` when `eff < 0.7`, else `0`. -/
def effBump (eff : ℚ) : ℚ :=
  if eff < 7/10 then min (1/5) ((7/10 - eff) * (2/5)) else 0

/-- `SimpleDecisionAgent._score_urgency`: returns
`(urgency, reasons, affected)`.  The Python body mutates three variables
(`urgency`, `reasons`, `affected`) inside each guarded block; each block
is embedded as one conditional update per variable, with the same guard
(the guards are pure, so this is the static-single-assignment form of the
same code). -/
def score_urgency (wq : WaterQualityData) (energy : EnergyData)
    (labor : LaborData) : ℚ × List String × List String :=
  let t := agentTargets
  let sw := statusWeight wq.status
  let c1 := sw > 0
  let c2 := wq.dissolved_oxygen < t.do_min
  let c3 := wq.ammonia > 1/5
  let c4 := wq.temperature < t.temp_min ∨ wq.temperature > t.temp_max
  let c5 := energy.efficiency_score < 7/10
  let c6 := labor.efficiency_score < 7/10
  let u1 : ℚ := if c1 then 0 + sw else 0
  let u2 := if c2 then u1 + doBump wq else u1
  let u3 := if c3 then u2 + ammoniaBump wq else u2
  let u4 := if c4 then u3 + tempBump wq else u3
  let u5 := if c5 then u4 + effBump energy.efficiency_score else u4
  let u6 := if c6 then u5 + effBump labor.efficiency_score else u5
  let r1 : List String :=
    if c1 then ["Water quality status: " ++ wq.status.value ++ "."] else []
  let r2 := if c2 then r1 ++ ["Low dissolved oxygen."] else r1
  let r3 := if c3 then r2 ++ ["High ammonia."] else r2
  let r4 := if c4 then r3 ++ ["Temperature out of range."] else r3
  let r5 := if c5 then r4 ++ ["Low energy efficiency."] else r4
  let r6 := if c6 then r5 ++ ["Low labor efficiency."] else r5
  let a1 : List String := if c1 then ["Water Quality"] else []
  let a2 := if c2 then a1 ++ ["Dissolved Oxygen"] else a1
  let a3 := if c3 then a2 ++ ["Ammonia Levels"] else a2
  let a4 := if c4 then a3 ++ ["Temperature"] else a3
  let a5 := if c5 then a4 ++ ["Energy Efficiency"] else a4
  let a6 := if c6 then a5 ++ ["Labor Efficiency"] else a5
  let urgency := clamp01 u6
  let reasons := if r6 = [] then ["Normal operating conditions."] else r6
  let affected := if a6 = [] then ["Normal Operations"] else firstOccur a6
  (urgency, reasons, affected)

/-- `SimpleDecisionAgent._select_actions`: first matching rule wins;
returns `(primary_action, secondary_actions)`.  Python's
`labor.next_tasks and len(labor.next_tasks) >= 3` is `len ≥ 3` (a list of
length ≥ 3 is truthy). -/
def select_actions (wq : WaterQualityData) (_feed : FeedData)
    (energy : EnergyData) (labor : LaborData) (urgency : ℚ) :
    ActionType × List ActionType :=
  let t := agentTargets
  if wq.status = .critical ∨ wq.dissolved_oxygen < 3 ∨ wq.ammonia > 1/2 ∨
      urgency > 9/10 then
    let s1 : List ActionType :=
      if wq.dissolved_oxygen < t.do_min then [.INCREASE_AERATION] else []
    let s2 : List ActionType :=
      if wq.ammonia > 1/5 ∨ wq.nitrite > 1/5 then s1 ++ [.WATER_EXCHANGE] else s1
    (.EMERGENCY_RESPONSE, s2)
  else if wq.dissolved_oxygen < t.do_min then
    let s1 : List ActionType :=
      if wq.ammonia > 1/5 ∨ wq.nitrite > 1/5 ∨ wq.turbidity > 8 then
        [.WATER_EXCHANGE]
      else []
    let s2 : List ActionType :=
      if wq.ammonia > 1/5 then s1 ++ [.ADJUST_FEED] else s1
    (.INCREASE_AERATION, s2)
  else if wq.ammonia > 1/5 ∨ wq.nitrite > 1/5 ∨ wq.turbidity > 8 then
    let s1 : List ActionType :=
      if wq.ammonia > 1/5 then [.ADJUST_FEED] else []
    (.WATER_EXCHANGE, s1)
  else if (wq.temperature < 26 ∨ wq.temperature > 30 ∨ wq.ph < t.ph_min ∨
      wq.ph > t.ph_max) ∧ urgency > 2/5 then
    (.ADJUST_FEED, [])
  else if energy.efficiency_score < 3/5 then
    (.EQUIPMENT_MAINTENANCE, [])
  else if labor.efficiency_score < 3/5 ∨ labor.next_tasks.length ≥ 3 then
    (.ALLOCATE_WORKERS, [])
  else if urgency > 1/4 then
    (.MONITOR_CLOSELY, [])
  else
    (.NO_ACTION, [])

/-- `SimpleDecisionAgent._recommended_equipment_levels`:
`(aerator, pump, heater)` levels. -/
def recommended_equipment_levels (wq : WaterQualityData) : ℚ × ℚ × ℚ :=
  let t := agentTargets
  let aerator :=
    if wq.dissolved_oxygen < t.do_min then
      min 1 (1/2 + (t.do_min - wq.dissolved_oxygen) / t.do_min)
    else if wq.dissolved_oxygen > t.do_min + 3/2 then
      max (3/10) (1/2 - (wq.dissolved_oxygen - (t.do_min + 3/2)) / 6)
    else (1/2 : ℚ)
  let pump0 : ℚ := 1/2
  let pump1 :=
    if wq.ammonia > 1/5 then min 1 (1/2 + (wq.ammonia - 1/5) * 2) else pump0
  let pump :=
    if wq.turbidity > 8 then min 1 (max pump1 (3/4)) else pump1
  let heater :=
    if wq.temperature < t.temp_min then min 1 ((t.temp_min - wq.temperature) / 5)
    else (0 : ℚ)
  (aerator, pump, heater)

/-- `SimpleDecisionAgent._recommended_feed_per_serving_g`. -/
def recommended_feed_per_serving_g (wq : WaterQualityData) (feed : FeedData) : ℚ :=
  let t := agentTargets
  let biomass_kg := ((feed.shrimp_count : ℚ) * feed.average_weight) / 1000
  let base_feed_rate : ℚ :=
    if feed.average_weight < 10 then 1/20
    else if feed.average_weight < 15 then 1/25
    else 3/100
  let daily_feed_g := biomass_kg * base_feed_rate * 1000
  let adj0 : ℚ := 1
  let adj1 :=
    if wq.temperature < 26 then adj0 * (4/5)
    else if wq.temperature > 30 then adj0 * (9/10)
    else adj0
  let adj2 := if wq.dissolved_oxygen < 5 then adj1 * (7/10) else adj1
  let adj3 :=
    if wq.ph < t.ph_min ∨ wq.ph > t.ph_max then adj2 * (9/10) else adj2
  let adj4 := if wq.ammonia > 1/5 then adj3 * (3/5) else adj3
  let adj := max (1/2) (min (6/5) adj4)
  let servings : ℤ := max 1 feed.feeding_frequency
  max 0 ((daily_feed_g * adj) / (servings : ℚ))

/-- `SimpleDecisionAgent._rule_confidence`. -/
def rule_confidence (wq : WaterQualityData) (urgency : ℚ)
    (action : ActionType) : ℚ :=
  let t := agentTargets
  if action = .EMERGENCY_RESPONSE then 19/20
  else if (action = .INCREASE_AERATION ∨ action = .WATER_EXCHANGE) ∧
      (wq.dissolved_oxygen < t.do_min ∨ wq.ammonia > 1/5) then 9/10
  else max (3/5) (min (17/20) (3/5 + urgency * (1/4)))

/-- The body of `make_decision` once the four entries for the pond have
been selected (everything after the four `next(...)` lines). -/
def decisionCore (pid : ℤ) (wq : WaterQualityData) (feed : FeedData)
    (energy : EnergyData) (labor : LaborData) : DecisionOutput :=
  let scored := score_urgency wq energy labor
  let urgency := scored.1
  let reasons := scored.2.1
  let affected := scored.2.2
  let acts := select_actions wq feed energy labor urgency
  let levels := recommended_equipment_levels wq
  { pond_id := pid
    primary_action := acts.1
    action_intensity := urgency
    secondary_actions := acts.2
    priority_rank := 1
    urgency_score := urgency
    recommended_feed_amount := some (recommended_feed_per_serving_g wq feed)
    recommended_aerator_level := some levels.1
    recommended_pump_level := some levels.2.1
    recommended_heater_level := some levels.2.2
    confidence := rule_confidence wq urgency acts.1
    reasoning := String.intercalate " " reasons
    affected_factors := affected }

/-- `next((w for w in ws if w.pond_id == pid), ws[0])` for each data list. -/
def selectByPond {α : Type} (pondIdOf : α → ℤ) (pid : ℤ) (hd : α)
    (l : List α) : α :=
  ((l.find? (fun x => pondIdOf x = pid)).getD hd)

/-- `SimpleDecisionAgent.make_decision`.  Raising `ValueError` is embedded
as `Except.error` with the source's message. -/
def make_decision (wqs : List WaterQualityData) (feeds : List FeedData)
    (energies : List EnergyData) (labors : List LaborData)
    (pid? : Option ℤ) : Except String DecisionOutput :=
  match wqs, feeds, energies, labors with
  | w0 :: wrest, f0 :: frest, e0 :: erest, l0 :: lrest =>
    let pid := pid?.getD w0.pond_id
    let wq := selectByPond WaterQualityData.pond_id pid w0 (w0 :: wrest)
    let feed := selectByPond FeedData.pond_id pid f0 (f0 :: frest)
    let energy := selectByPond EnergyData.pond_id pid e0 (e0 :: erest)
    let labor := selectByPond LaborData.pond_id pid l0 (l0 :: lrest)
    .ok (decisionCore pid wq feed energy labor)
  | _, _, _, _ => .error "All data lists must be non-empty"

/-- The comparison passed to Python's stable `sorted(decisions.items(),
key=lambda kv: kv[1].urgency_score, reverse=True)`: `a` may come before
`b` exactly when `b`'s urgency is not larger.  Python's sort is stable, and
`List.insertionSort` with this relation is the standard stable realisation
of it (equal keys keep their original relative order). -/
def urgencyGE (a b : ℤ × DecisionOutput) : Prop :=
  b.2.urgency_score ≤ a.2.urgency_score

instance : DecidableRel urgencyGE := fun a b =>
  inferInstanceAs (Decidable (b.2.urgency_score ≤ a.2.urgency_score))

instance : IsTotal (ℤ × DecisionOutput) urgencyGE :=
  ⟨fun a b => le_total b.2.urgency_score a.2.urgency_score⟩

instance : IsTrans (ℤ × DecisionOutput) urgencyGE :=
  ⟨fun _ _ _ h1 h2 => le_trans h2 h1⟩

/-- `enumerate(urgency_sorted, start=n)` turned into the
`pond_priorities` association list: key ↦ 1-based rank. -/
def rankListFrom (n : ℕ) : List (ℤ × DecisionOutput) → List (ℤ × ℕ)
  | [] => []
  | e :: rest => (e.1, n) :: rankListFrom (n + 1) rest

/-- The `for pond_id in pond_ids:` loop of `make_multi_pond_decisions`:
build the association list of decisions, propagating the first
`ValueError` (in the source a raised exception aborts the whole call). -/
def decisionsLoop (wqs : List WaterQualityData) (feeds : List FeedData)
    (energies : List EnergyData) (labors : List LaborData) :
    List ℤ → Except String (List (ℤ × DecisionOutput))
  | [] => .ok []
  | pid :: rest =>
    match make_decision wqs feeds energies labors (some pid) with
    | .error e => .error e
    | .ok d =>
      match decisionsLoop wqs feeds energies labors rest with
      | .error e => .error e
      | .ok tail => .ok ((pid, d) :: tail)

/-- The pure part of `make_multi_pond_decisions` after the `decisions`
dict has been built: rank assignment, urgent list, resource allocation. -/
def prioritize (decisions : List (ℤ × DecisionOutput)) : MultiPondDecision :=
  let urgency_sorted := List.insertionSort urgencyGE decisions
  let pond_priorities := rankListFrom 1 urgency_sorted
  let updated := decisions.map (fun e =>
    (e.1, { e.2 with priority_rank :=
      ((findVal e.1 pond_priorities).getD 1 : ℕ) }))
  let urgent_ponds :=
    (updated.filter (fun e => e.2.urgency_score > 7/10)).map Prod.fst
  let overall_urgency :=
    (updated.map (fun e => e.2.urgency_score)).foldr max 0
  let total_urgency : ℚ := (updated.map (fun e => e.2.urgency_score)).sum
  let resource_allocation : List (String × ℚ) :=
    if total_urgency > 0 then
      updated.map (fun e =>
        ("pond_" ++ toString e.1, e.2.urgency_score / total_urgency))
    else []
  { pond_priorities := pond_priorities
    urgent_ponds := urgent_ponds
    recommended_actions := updated
    overall_urgency := overall_urgency
    resource_allocation := resource_allocation }

/-- `SimpleDecisionAgent.make_multi_pond_decisions`.  The `decisions` dict
is the association list over the first occurrences of the pond ids (a
duplicate pond id re-writes an equal value at the same position, because
`make_decision` is deterministic in `pond_id`). -/
def make_multi_pond_decisions (wqs : List WaterQualityData)
    (feeds : List FeedData) (energies : List EnergyData)
    (labors : List LaborData) : Except String MultiPondDecision :=
  match decisionsLoop wqs feeds energies labors
      (firstOccur (wqs.map WaterQualityData.pond_id)) with
  | .error e => .error e
  | .ok decisions => .ok (prioritize decisions)

/-!
Embedding of the ingestion API (`predict_api.py`).

A sensor value arriving in the JSON body is any Python value; `float(v)`
succeeds on numbers and numeric strings and raises otherwise.  We embed a
value as either `num q` (a number, or a numeric string already read as the
rational it denotes) or `nonnum` (anything `float()` rejects, including
`None` held as an explicit value).  The opaque model artifacts are
parameters: functions from the feature vector to their outputs, plus the
feature-name list shipped with the random-forest artifact.  The SQLite
write and the event-loop broadcast scheduling are effects; they are
embedded as flags in the outcome record, with a boolean `dbFails`
parameter choosing whether `save_sample_to_db` raises on this call.
-/

/-- A JSON sensor value as seen by `float(...)`. -/
inductive SVal
  | num (q : ℚ)
  | nonnum (s : String)
deriving DecidableEq

/-- Python `float(v)`: numbers and numeric strings convert, everything
else raises (embedded as `none`). -/
def pyFloat : SVal → Option ℚ
  | .num q => some q
  | .nonnum _ => none

/-- Errors surfaced by the ingestion endpoints: `HTTPException(400)` for
an unconvertible feature value, `HTTPException(500)` for an artifact with
no feature names, and an unhandled exception escaping
`save_sample_to_db`. -/
inductive ApiErr
  | invalidInput
  | missingFeatureNames
  | persistenceFailure
deriving DecidableEq

/-- The opaque dashboard model artifacts (`random_forest_multioutput`,
`svm_classifier`, `knn_do`): `predict` on a feature vector, the optional
`predict_proba`, and the feature-name list stored with the RF artifact. -/
structure DashModels where
  rfM : List ℚ → ℚ × ℚ × ℚ
  svmM : List ℚ → ℤ
  svmProb : Option (List ℚ → List ℚ)
  knnM : List ℚ → ℚ
  rfFeatures : Option (List String)

/-- `X = np.array([[float(sensors.get(k, 0)) for k in features]])`:
a missing feature is filled with `0`, an unconvertible one raises
`HTTPException(400)`. -/
def buildX (features : List String) (sensors : List (String × SVal)) :
    Except ApiErr (List ℚ) :=
  features.mapM (fun k =>
    match pyFloat ((findVal k sensors).getD (.num 0)) with
    | some q => .ok q
    | none => .error .invalidInput)

/-- The `rf` output dict: `{DO, pH, Ammonia}` plus the optional fallback
note. -/
structure RfOut where
  do_out : ℚ
  ph : ℚ
  ammonia : ℚ
  note : Option String
deriving DecidableEq

/-- The `svm` output dict: class, optional probability vector, optional
label (only `_process_sample_and_persist` fills the label). -/
structure SvmOut where
  cls : ℤ
  probabilities : Option (List ℚ)
  label : Option String
deriving DecidableEq

/-- `{0:'Good',1:'Warning',2:'Dangerous'}.get(cls)`. -/
def svmLabel (cls : ℤ) : Option String :=
  if cls = 0 then some "Good"
  else if cls = 1 then some "Warning"
  else if cls = 2 then some "Dangerous"
  else none

/-- The JSON body returned by `/dashboard/predict_all`. -/
structure PredictAllResponse where
  rf : RfOut
  svm : SvmOut
  knn : ℚ
  knn_fallback_used : Bool
deriving DecidableEq

/-- The outcome of one ingestion call: the value returned (or the error
raised) to the HTTP caller, whether the history row was written, and
whether the broadcast task was scheduled. -/
structure IngestOutcome (α : Type) where
  result : Except ApiErr α
  dbSaved : Bool
  broadcastScheduled : Bool

/-- `do_input = req.input.get('DO(mg/L)')` followed by
`float(do_input) if do_input is not None else None` with the
`except: do_val = None` guard. -/
def doValOf (sensors : List (String × SVal)) : Option ℚ :=
  match findVal "DO(mg/L)" sensors with
  | none => none
  | some v => pyFloat v

/-- The shared inference part of `/dashboard/predict_all` and
`_process_sample_and_persist`: run the three models on the feature vector
and apply the KNN DO fallback.  Returns
`(rf_out, svm_pred, knn_pred, fallback_used)`. -/
def inferAndFallback (m : DashModels) (X : List ℚ)
    (sensors : List (String × SVal)) : RfOut × ℤ × ℚ × Bool :=
  let rf_preds := m.rfM X
  let svm_pred := m.svmM X
  let knn_pred := m.knnM X
  let do_val := doValOf sensors
  let fallback : Bool :=
    match do_val with
    | none => true
    | some q => decide (q ≤ 0)
  let rf_out : RfOut :=
    if fallback then
      { do_out := knn_pred, ph := rf_preds.2.1, ammonia := rf_preds.2.2
        note := some "DO estimated via KNN fallback (sensor missing or invalid)" }
    else
      { do_out := rf_preds.1, ph := rf_preds.2.1, ammonia := rf_preds.2.2
        note := none }
  (rf_out, svm_pred, knn_pred, fallback)

/-- `/dashboard/predict_all` (`dashboard_predict_all`): inference with
fallback, then `save_sample_to_db` **not** wrapped in `try`, then the
broadcast task is scheduled and the JSON body returned.  A db failure
therefore escapes before the broadcast is scheduled. -/
def dashboard_predict_all (m : DashModels) (dbFails : Bool)
    (input : List (String × SVal)) : IngestOutcome PredictAllResponse :=
  match m.rfFeatures with
  | none => ⟨.error .missingFeatureNames, false, false⟩
  | some features =>
    match buildX features input with
    | .error e => ⟨.error e, false, false⟩
    | .ok X =>
      let r := inferAndFallback m X input
      let svm_out : SvmOut :=
        { cls := r.2.1, probabilities := m.svmProb.map (fun f => f X)
          label := none }
      if dbFails then ⟨.error .persistenceFailure, false, false⟩
      else
        ⟨.ok { rf := r.1, svm := svm_out, knn := r.2.2.1
               knn_fallback_used := r.2.2.2 },
         true, true⟩

/-- `_process_sample_and_persist`: same inference and fallback, but
`save_sample_to_db` is wrapped in `try/except` (a failure is printed and
swallowed) and the broadcast task is scheduled regardless.  Returns the
`(rf_out, svm_out, knn_out, fallback_used)` tuple (`ts` omitted). -/
def process_sample_and_persist (m : DashModels) (dbFails : Bool)
    (sensors : List (String × SVal)) :
    IngestOutcome (RfOut × SvmOut × ℚ × Bool) :=
  match m.rfFeatures with
  | none => ⟨.error .missingFeatureNames, false, false⟩
  | some features =>
    match buildX features sensors with
    | .error e => ⟨.error e, false, false⟩
    | .ok X =>
      let r := inferAndFallback m X sensors
      let svm_out : SvmOut :=
        { cls := r.2.1, probabilities := m.svmProb.map (fun f => f X)
          label := m.svmProb.map (fun _ => svmLabel r.2.1) |>.join }
      ⟨.ok (r.1, svm_out, r.2.2.1, r.2.2.2), !dbFails, true⟩

/-- Position of the first occurrence of `a` in a list (0-based); the
index Python's stable sort preserves among equal keys. -/
def posOf {α : Type} [DecidableEq α] (a : α) : List α → ℕ
  | [] => 0
  | x :: xs => if x = a then 0 else posOf a xs + 1

theorem firstOccur_nil {α : Type} [DecidableEq α] :
    firstOccur ([] : List α) = [] := by
  simp [firstOccur]

theorem firstOccur_cons {α : Type} [DecidableEq α] (x : α) (xs : List α) :
    firstOccur (x :: xs) = x :: firstOccur (xs.filter (fun y => y ≠ x)) := by
  rw [firstOccur]

theorem firstOccur_eq_self {α : Type} [DecidableEq α] {l : List α}
    (h : l.Nodup) : firstOccur l = l := by
  induction l with
  | nil => exact firstOccur_nil
  | cons x xs ih =>
    rw [firstOccur_cons]
    have hx : x ∉ xs := (List.nodup_cons.mp h).1
    have hf : xs.filter (fun y => y ≠ x) = xs := by
      apply List.filter_eq_self.mpr
      intro y hy
      simp only [ne_eq, decide_eq_true_eq]
      exact fun hyx => hx (hyx ▸ hy)
    rw [hf, ih (List.nodup_cons.mp h).2]

theorem findVal_mem_snd {κ β : Type} [DecidableEq κ] {k : κ} {v : β}
    {l : List (κ × β)} (h : findVal k l = some v) : v ∈ l.map Prod.snd := by
  induction l with
  | nil => simp [findVal] at h
  | cons e rest ih =>
    by_cases he : e.1 = k
    · simp [findVal, he] at h
      simp [h]
    · simp [findVal, he] at h
      simp [ih h]

theorem rankListFrom_map_fst (n : ℕ) (s : List (ℤ × DecisionOutput)) :
    (rankListFrom n s).map Prod.fst = s.map Prod.fst := by
  induction s generalizing n with
  | nil => rfl
  | cons e rest ih => simp [rankListFrom, ih]

theorem rankListFrom_map_snd (n : ℕ) (s : List (ℤ × DecisionOutput)) :
    (rankListFrom n s).map Prod.snd = List.range' n s.length := by
  induction s generalizing n with
  | nil => rfl
  | cons e rest ih => simp [rankListFrom, ih, List.range']

theorem findVal_rankListFrom (s : List (ℤ × DecisionOutput)) (n : ℕ)
    (pid : ℤ) (h : pid ∈ s.map Prod.fst) :
    findVal pid (rankListFrom n s) = some (n + posOf pid (s.map Prod.fst)) := by
  induction s generalizing n with
  | nil => simp at h
  | cons e rest ih =>
    by_cases he : e.1 = pid
    · simp [rankListFrom, findVal, posOf, he]
    · have hm : pid ∈ rest.map Prod.fst := by
        simp only [List.map_cons, List.mem_cons] at h
        exact h.resolve_left (fun hh => he hh.symm)
      simp only [rankListFrom, findVal, he, if_false, List.map_cons, posOf,
        ih (n + 1) hm]
      congr 1
      omega

theorem posOf_lt_length {α : Type} [DecidableEq α] {a : α} {l : List α}
    (h : a ∈ l) : posOf a l < l.length := by
  induction l with
  | nil => simp at h
  | cons x xs ih =>
    by_cases hx : x = a
    · simp [posOf, hx]
    · have : a ∈ xs := by
        rcases List.mem_cons.mp h with h1 | h1
        · exact absurd h1.symm hx
        · exact h1
      simp only [posOf, hx, if_false, List.length_cons]
      exact Nat.succ_lt_succ (ih this)

theorem pair_sublist_posOf {α : Type} [DecidableEq α] {a b : α}
    {l : List α} (h : List.Sublist [a, b] l) (hnd : l.Nodup) :
    posOf a l < posOf b l := by
  induction l with
  | nil => simp at h
  | cons x xs ih =>
    rcases List.nodup_cons.mp hnd with ⟨hx, hnd2⟩
    cases h with
    | cons _ h2 =>
      have ha : a ∈ xs := h2.subset (by simp)
      have hb : b ∈ xs := h2.subset (by simp)
      have hxa : x ≠ a := fun hh => hx (hh ▸ ha)
      have hxb : x ≠ b := fun hh => hx (hh ▸ hb)
      have hlt := ih h2 hnd2
      simp [posOf, hxa, hxb]
      omega
    | cons₂ _ h2 =>
      have hb : b ∈ xs := h2.subset (by simp)
      have hab : a ≠ b := fun hh => hx (hh ▸ hb)
      simp [posOf, hab]

theorem mem_pair_sublist {α : Type} {a b : α} {l : List α}
    (ha : a ∈ l) (hb : b ∈ l) (hab : a ≠ b) :
    List.Sublist [a, b] l ∨ List.Sublist [b, a] l := by
  induction l with
  | nil => simp at ha
  | cons x xs ih =>
    rcases List.mem_cons.mp ha with h1 | h1
    · left
      have : b ∈ xs := by
        rcases List.mem_cons.mp hb with h2 | h2
        · exact absurd (h1.trans h2.symm) hab
        · exact h2
      exact (List.singleton_sublist.mpr this).cons₂ a |>.trans
        (by rw [h1])
    · rcases List.mem_cons.mp hb with h2 | h2
      · right
        exact (List.singleton_sublist.mpr h1).cons₂ b |>.trans (by rw [h2])
      · rcases ih h1 h2 with h3 | h3
        · exact Or.inl (h3.cons x)
        · exact Or.inr (h3.cons x)

theorem posOf_lt_pair_sublist {α : Type} [DecidableEq α] {a b : α}
    {l : List α} (ha : a ∈ l) (hb : b ∈ l) (h : posOf a l < posOf b l) :
    List.Sublist [a, b] l := by
  induction l with
  | nil => simp at ha
  | cons x xs ih =>
    by_cases hxa : x = a
    · have hxb : x ≠ b := by
        intro hh
        rw [posOf, if_pos hxa, posOf, if_pos hh] at h
        omega
      have hb2 : b ∈ xs := by
        rcases List.mem_cons.mp hb with h2 | h2
        · exact absurd h2.symm hxb
        · exact h2
      have : List.Sublist [a, b] (a :: xs) := (List.singleton_sublist.mpr hb2).cons₂ a
      rwa [hxa]
    · by_cases hxb : x = b
      · rw [posOf, if_neg hxa, posOf, if_pos hxb] at h
        omega
      · have ha2 : a ∈ xs := by
          rcases List.mem_cons.mp ha with h2 | h2
          · exact absurd h2.symm hxa
          · exact h2
        have hb2 : b ∈ xs := by
          rcases List.mem_cons.mp hb with h2 | h2
          · exact absurd h2.symm hxb
          · exact h2
        rw [posOf, if_neg hxa, posOf, if_neg hxb] at h
        exact (ih ha2 hb2 (by omega)).cons x

theorem posOf_map_inj {α β : Type} [DecidableEq α] [DecidableEq β]
    {f : α → β} (hf : Function.Injective f) (a : α) (l : List α) :
    posOf (f a) (l.map f) = posOf a l := by
  induction l with
  | nil => rfl
  | cons x xs ih =>
    by_cases hx : x = a
    · simp [posOf, hx]
    · have : f x ≠ f a := fun hh => hx (hf hh)
      simp [posOf, hx, this, ih]

theorem posOf_fst {s : List (ℤ × DecisionOutput)}
    (hnd : (s.map Prod.fst).Nodup) {e : ℤ × DecisionOutput} (he : e ∈ s) :
    posOf e.1 (s.map Prod.fst) = posOf e s := by
  induction s with
  | nil => simp at he
  | cons x rest ih =>
    simp only [List.map_cons, List.nodup_cons] at hnd
    by_cases hx : x = e
    · simp [posOf, hx]
    · have he2 : e ∈ rest := by
        rcases List.mem_cons.mp he with h1 | h1
        · exact absurd h1.symm hx
        · exact h1
      have hx1 : x.1 ≠ e.1 := by
        intro hh
        exact hnd.1 (hh ▸ List.mem_map_of_mem Prod.fst he2)
      simp [posOf, hx, hx1, ih hnd.2 he2]

/-- The decision `make_decision` produces for `pid` on non-empty input
lists: the body applied to the four selected entries. -/
def decisionFor (w0 : WaterQualityData) (ws : List WaterQualityData)
    (f0 : FeedData) (fs : List FeedData) (e0 : EnergyData)
    (es : List EnergyData) (l0 : LaborData) (ls : List LaborData)
    (pid : ℤ) : DecisionOutput :=
  decisionCore pid
    (selectByPond WaterQualityData.pond_id pid w0 (w0 :: ws))
    (selectByPond FeedData.pond_id pid f0 (f0 :: fs))
    (selectByPond EnergyData.pond_id pid e0 (e0 :: es))
    (selectByPond LaborData.pond_id pid l0 (l0 :: ls))

theorem make_decision_cons (w0 : WaterQualityData) (ws : List WaterQualityData)
    (f0 : FeedData) (fs : List FeedData) (e0 : EnergyData)
    (es : List EnergyData) (l0 : LaborData) (ls : List LaborData)
    (pid? : Option ℤ) :
    make_decision (w0 :: ws) (f0 :: fs) (e0 :: es) (l0 :: ls) pid? =
      .ok (decisionFor w0 ws f0 fs e0 es l0 ls (pid?.getD w0.pond_id)) :=
  rfl

theorem make_decision_empty (wqs : List WaterQualityData)
    (feeds : List FeedData) (energies : List EnergyData)
    (labors : List LaborData) (pid? : Option ℤ)
    (h : wqs = [] ∨ feeds = [] ∨ energies = [] ∨ labors = []) :
    make_decision wqs feeds energies labors pid? =
      .error "All data lists must be non-empty" := by
  cases wqs <;> cases feeds <;> cases energies <;> cases labors <;>
    first
    | rfl
    | simp at h

theorem decisionsLoop_ok (w0 : WaterQualityData) (ws : List WaterQualityData)
    (f0 : FeedData) (fs : List FeedData) (e0 : EnergyData)
    (es : List EnergyData) (l0 : LaborData) (ls : List LaborData)
    (pids : List ℤ) :
    decisionsLoop (w0 :: ws) (f0 :: fs) (e0 :: es) (l0 :: ls) pids =
      .ok (pids.map (fun pid => (pid, decisionFor w0 ws f0 fs e0 es l0 ls pid))) := by
  induction pids with
  | nil => rfl
  | cons pid rest ih =>
    simp [decisionsLoop, make_decision_cons, ih]

/-- The association list `make_multi_pond_decisions` builds for
non-empty input lists: one decision per (first occurrence of a) pond id
from the water-quality list. -/
def pondEntries (w0 : WaterQualityData) (ws : List WaterQualityData)
    (f0 : FeedData) (fs : List FeedData) (e0 : EnergyData)
    (es : List EnergyData) (l0 : LaborData) (ls : List LaborData) :
    List (ℤ × DecisionOutput) :=
  (firstOccur ((w0 :: ws).map WaterQualityData.pond_id)).map
    (fun pid => (pid, decisionFor w0 ws f0 fs e0 es l0 ls pid))

theorem make_multi_eq (w0 : WaterQualityData) (ws : List WaterQualityData)
    (f0 : FeedData) (fs : List FeedData) (e0 : EnergyData)
    (es : List EnergyData) (l0 : LaborData) (ls : List LaborData) :
    make_multi_pond_decisions (w0 :: ws) (f0 :: fs) (e0 :: es) (l0 :: ls) =
      .ok (prioritize (pondEntries w0 ws f0 fs e0 es l0 ls)) := by
  simp [make_multi_pond_decisions, decisionsLoop_ok, pondEntries]

theorem prioritize_pond_priorities (d : List (ℤ × DecisionOutput)) :
    (prioritize d).pond_priorities =
      rankListFrom 1 (List.insertionSort urgencyGE d) :=
  rfl

/-- The rank-update map in `make_multi_pond_decisions` keeps each entry's
key and urgency score. -/
theorem prioritize_keys_urgencies (d : List (ℤ × DecisionOutput)) :
    (prioritize d).recommended_actions.map Prod.fst = d.map Prod.fst ∧
    (prioritize d).recommended_actions.map (fun e => e.2.urgency_score) =
      d.map (fun e => e.2.urgency_score) := by
  constructor <;>
    simp [prioritize, List.map_map, Function.comp]

theorem prioritize_urgent (d : List (ℤ × DecisionOutput)) :
    (prioritize d).urgent_ponds =
      (d.filter (fun e => 7/10 < e.2.urgency_score)).map Prod.fst := by
  simp only [prioritize, List.filter_map, List.map_map]
  rfl

/-- The sum of all urgency scores in the decisions list, the denominator
of `resource_allocation`. -/
def totalUrgency (d : List (ℤ × DecisionOutput)) : ℚ :=
  (d.map (fun e => e.2.urgency_score)).sum

theorem prioritize_alloc (d : List (ℤ × DecisionOutput)) :
    (prioritize d).resource_allocation =
      if 0 < totalUrgency d then
        d.map (fun e =>
          ("pond_" ++ toString e.1, e.2.urgency_score / totalUrgency d))
      else [] := by
  show (if 0 < ((d.map _).map _).sum then (d.map _).map _ else []) = _
  have hs : ((d.map (fun e : ℤ × DecisionOutput =>
      (e.1, { e.2 with priority_rank :=
        ((findVal e.1 (rankListFrom 1 (List.insertionSort urgencyGE d))).getD 1 : ℕ) }))).map
        (fun e => e.2.urgency_score)) =
      d.map (fun e => e.2.urgency_score) := by
    simp [List.map_map, Function.comp]
  rw [hs]
  by_cases h : 0 < totalUrgency d
  · rw [if_pos (by simpa [totalUrgency] using h),
      if_pos h]
    simp [List.map_map, Function.comp, totalUrgency]
  · rw [if_neg (by simpa [totalUrgency] using h), if_neg h]

theorem findVal_isSome_of_mem_keys {κ β : Type} [DecidableEq κ] {k : κ}
    {l : List (κ × β)} (h : k ∈ l.map Prod.fst) :
    ∃ v, findVal k l = some v := by
  induction l with
  | nil => simp at h
  | cons e rest ih =>
    by_cases he : e.1 = k
    · exact ⟨e.2, by simp [findVal, he]⟩
    · have : k ∈ rest.map Prod.fst := by
        simp only [List.map_cons, List.mem_cons] at h
        exact h.resolve_left (fun hh => he hh.symm)
      obtain ⟨v, hv⟩ := ih this
      exact ⟨v, by simp [findVal, he, hv]⟩

theorem prioritize_priorities_values (d : List (ℤ × DecisionOutput)) :
    (prioritize d).pond_priorities.map Prod.snd = List.range' 1 d.length := by
  rw [prioritize_pond_priorities, rankListFrom_map_snd,
    List.length_insertionSort]

theorem prioritize_priorities_keys (d : List (ℤ × DecisionOutput)) :
    List.Perm ((prioritize d).pond_priorities.map Prod.fst)
      (d.map Prod.fst) := by
  rw [prioritize_pond_priorities, rankListFrom_map_fst]
  exact (List.perm_insertionSort urgencyGE d).map Prod.fst

/-- THE ranking lemma: in `prioritize`, an entry with strictly larger
urgency — or with equal urgency but an earlier position in the decisions
list (Python's stable sort) — receives a strictly smaller rank. -/
theorem prioritize_rank (d : List (ℤ × DecisionOutput))
    (hnd : (d.map Prod.fst).Nodup) (a b : ℤ × DecisionOutput)
    (ha : a ∈ d) (hb : b ∈ d)
    (hcond : b.2.urgency_score < a.2.urgency_score ∨
      (a.2.urgency_score = b.2.urgency_score ∧ posOf a d < posOf b d)) :
    ∃ ra rb, findVal a.1 (prioritize d).pond_priorities = some ra ∧
      findVal b.1 (prioritize d).pond_priorities = some rb ∧ ra < rb := by
  have hperm : List.Perm (List.insertionSort urgencyGE d) d :=
    List.perm_insertionSort urgencyGE d
  have hkeysperm :
      List.Perm ((List.insertionSort urgencyGE d).map Prod.fst)
        (d.map Prod.fst) := hperm.map Prod.fst
  have hnds : ((List.insertionSort urgencyGE d).map Prod.fst).Nodup :=
    hkeysperm.nodup_iff.mpr hnd
  have hsnd : (List.insertionSort urgencyGE d).Nodup := hnds.of_map
  have has : a ∈ List.insertionSort urgencyGE d := hperm.mem_iff.mpr ha
  have hbs : b ∈ List.insertionSort urgencyGE d := hperm.mem_iff.mpr hb
  have hka : a.1 ∈ (List.insertionSort urgencyGE d).map Prod.fst :=
    List.mem_map_of_mem Prod.fst has
  have hkb : b.1 ∈ (List.insertionSort urgencyGE d).map Prod.fst :=
    List.mem_map_of_mem Prod.fst hbs
  have hsort : (List.insertionSort urgencyGE d).Pairwise urgencyGE :=
    List.sorted_insertionSort urgencyGE d
  have hab : a ≠ b := by
    intro hh
    subst hh
    rcases hcond with hlt | ⟨_, hpos⟩
    · exact absurd hlt (lt_irrefl _)
    · exact absurd hpos (lt_irrefl _)
  have hpair : List.Sublist [a, b] (List.insertionSort urgencyGE d) := by
    rcases hcond with hlt | ⟨heq, hpos⟩
    · rcases mem_pair_sublist has hbs hab with h | h
      · exact h
      · exfalso
        have : urgencyGE b a := List.pairwise_pair.mp (hsort.sublist h)
        exact absurd (lt_of_lt_of_le hlt this) (lt_irrefl _)
    · have hsub : List.Sublist [a, b] d := posOf_lt_pair_sublist ha hb hpos
      exact List.pair_sublist_insertionSort (le_of_eq heq.symm) hsub
  have hps : posOf a (List.insertionSort urgencyGE d) <
      posOf b (List.insertionSort urgencyGE d) :=
    pair_sublist_posOf hpair hsnd
  refine ⟨1 + posOf a.1 ((List.insertionSort urgencyGE d).map Prod.fst),
    1 + posOf b.1 ((List.insertionSort urgencyGE d).map Prod.fst),
    ?_, ?_, ?_⟩
  · rw [prioritize_pond_priorities]
    exact findVal_rankListFrom _ 1 a.1 hka
  · rw [prioritize_pond_priorities]
    exact findVal_rankListFrom _ 1 b.1 hkb
  · rw [posOf_fst hnds has, posOf_fst hnds hbs]
    omega

theorem list_sum_div (l : List ℚ) (t : ℚ) :
    (l.map (fun x => x / t)).sum = l.sum / t := by
  induction l with
  | nil => simp
  | cons x xs ih => simp [ih, add_div]

theorem statusWeight_nonneg (s : WaterQualityStatus) : 0 ≤ statusWeight s := by
  cases s <;> norm_num [statusWeight]

theorem if_status_add (wq : WaterQualityData) :
    (if statusWeight wq.status > 0 then (0 : ℚ) + statusWeight wq.status
      else 0) = statusWeight wq.status := by
  by_cases h : statusWeight wq.status > 0
  · simp [h]
  · simp [h, le_antisymm (not_lt.mp h) (statusWeight_nonneg wq.status)]

theorem if_add_doBump (x : ℚ) (wq : WaterQualityData) :
    (if wq.dissolved_oxygen < agentTargets.do_min then x + doBump wq else x)
      = x + doBump wq := by
  by_cases h : wq.dissolved_oxygen < agentTargets.do_min
  · rw [if_pos h]
  · rw [if_neg h]
    simp only [doBump]
    rw [if_neg h, add_zero]

theorem if_add_ammoniaBump (x : ℚ) (wq : WaterQualityData) :
    (if wq.ammonia > 1/5 then x + ammoniaBump wq else x)
      = x + ammoniaBump wq := by
  by_cases h : wq.ammonia > 1/5
  · rw [if_pos h]
  · rw [if_neg h]
    simp only [ammoniaBump]
    rw [if_neg h, add_zero]

theorem if_add_tempBump (x : ℚ) (wq : WaterQualityData) :
    (if wq.temperature < agentTargets.temp_min ∨
        wq.temperature > agentTargets.temp_max then x + tempBump wq else x)
      = x + tempBump wq := by
  by_cases h : wq.temperature < agentTargets.temp_min ∨
      wq.temperature > agentTargets.temp_max
  · rw [if_pos h]
  · rw [if_neg h]
    simp only [tempBump]
    rw [if_neg h, add_zero]

theorem if_add_effBump (x eff : ℚ) :
    (if eff < 7/10 then x + effBump eff else x) = x + effBump eff := by
  by_cases h : eff < 7/10
  · rw [if_pos h]
  · rw [if_neg h]
    simp only [effBump]
    rw [if_neg h, add_zero]

/-- The urgency component of `_score_urgency` in closed form: the clamp
to `[0,1]` of the sum of the status weight and the five capped
contributions. -/
theorem score_urgency_eq (wq : WaterQualityData) (energy : EnergyData)
    (labor : LaborData) :
    (score_urgency wq energy labor).1 =
      clamp01 (statusWeight wq.status + doBump wq + ammoniaBump wq +
        tempBump wq + effBump energy.efficiency_score +
        effBump labor.efficiency_score) := by
  simp only [score_urgency, if_status_add, if_add_doBump, if_add_ammoniaBump,
    if_add_tempBump, if_add_effBump]

/-- A live WebSocket subscriber: an identifier and whether `send_json`
to it succeeds (the network outcome, fixed per subscriber for the call
being modelled). -/
structure Subscriber where
  id : ℕ
  sendOk : Bool
deriving DecidableEq

/-- The value returned by `ConnectionManager.broadcast` together with the
new `active_connections` list: `(len(living), failed)` and `living`. -/
structure BroadcastOutcome where
  active : List Subscriber
  delivered : ℕ
  failed : ℕ
deriving DecidableEq

/-- `ConnectionManager.broadcast`: iterate over the active connections,
keep the ones whose send succeeded, count the failures, and replace the
active set with the survivors.  No exception escapes the loop. -/
def broadcast : List Subscriber → BroadcastOutcome
  | [] => ⟨[], 0, 0⟩
  | c :: rest =>
    let r := broadcast rest
    if c.sendOk then ⟨c :: r.active, r.delivered + 1, r.failed⟩
    else ⟨r.active, r.delivered, r.failed + 1⟩

/-- `ConnectionManager.broadcast` in closed form: the new active set is
the sub-list of subscribers whose send succeeded (in order), `delivered`
is their number, `failed` the number of the others. -/
theorem broadcast_eq (subs : List Subscriber) :
    broadcast subs =
      ⟨subs.filter (fun s => s.sendOk),
       (subs.filter (fun s => s.sendOk)).length,
       (subs.filter (fun s => !s.sendOk)).length⟩ := by
  induction subs with
  | nil => rfl
  | cons c rest ih =>
    by_cases hc : c.sendOk <;> simp [broadcast, ih, List.filter, hc]

/-!
Concrete fixture data used by witnesses and counterexamples.
-/

/-- A healthy pond-1 sample (`status = good`, all metrics in range). -/
def wgood : WaterQualityData :=
  { pond_id := 1, ph := 8, temperature := 28, dissolved_oxygen := 6,
    salinity := 20, ammonia := 1/10, nitrite := 0, nitrate := 0,
    turbidity := 5, status := .good }

/-- The same sample with `status = critical`. -/
def wcrit : WaterQualityData := { wgood with status := .critical }

/-- The healthy sample with `DO = 3.0` (below the spec's 5.5 but above
the configured 2.2). -/
def wdo3 : WaterQualityData := { wgood with dissolved_oxygen := 3 }

/-- The healthy sample with `ammonia = 0.3` (above the 0.2 threshold but
below the 0.5 emergency trigger). -/
def wam3 : WaterQualityData := { wgood with ammonia := 3/10 }

def feedStd : FeedData :=
  { pond_id := 1, shrimp_count := 1000, average_weight := 12,
    feed_amount := 5, feeding_frequency := 3 }

def energyStd : EnergyData :=
  { pond_id := 1, total_energy := 10, cost := 5, efficiency_score := 4/5 }

/-- Energy efficiency `0.575`, whose contribution `(0.7 − 0.575) × 0.4 =
0.05` brings a critical pond's urgency to exactly `0.7`. -/
def energyLow : EnergyData := { energyStd with efficiency_score := 23/40 }

def laborStd : LaborData :=
  { pond_id := 1, worker_count := 3, efficiency_score := 4/5,
    next_tasks := [] }

/-- C9: `Broadcast(event)` attempts delivery to every active subscriber
and returns `(delivered, failed)`: the surviving active set is exactly
the subscribers whose send succeeded (in order), so a failure removes
only the failing subscriber; `delivered + failed` covers every
subscriber, no error is raised (the function is total), and with zero
subscribers the result is `(0, 0)`. -/
theorem C9_broadcast_isolation (subs : List Subscriber) :
    (broadcast subs).active = subs.filter (fun s => s.sendOk) ∧
    (broadcast subs).delivered = (subs.filter (fun s => s.sendOk)).length ∧
    (broadcast subs).failed = (subs.filter (fun s => !s.sendOk)).length ∧
    (broadcast subs).delivered + (broadcast subs).failed = subs.length ∧
    broadcast [] = ⟨[], 0, 0⟩ := by
  have hlen : ∀ l : List Subscriber,
      (l.filter (fun s => s.sendOk)).length +
        (l.filter (fun s => !s.sendOk)).length = l.length := by
    intro l
    induction l with
    | nil => rfl
    | cons c rest ih =>
      by_cases hc : c.sendOk <;>
        simp [List.filter, hc, ← ih] <;> omega
  rw [broadcast_eq subs]
  exact ⟨rfl, rfl, rfl, hlen subs, rfl⟩

/-- C10: `make_decision` raises `ValueError` exactly when one of the four
input lists is empty; on non-empty lists it always returns a decision,
and when no entry of any list matches the requested pond id it falls
back to the first entry of each list. -/
theorem C10_make_decision_total (wqs : List WaterQualityData)
    (feeds : List FeedData) (energies : List EnergyData)
    (labors : List LaborData) (pid? : Option ℤ) :
    ((wqs = [] ∨ feeds = [] ∨ energies = [] ∨ labors = []) →
      make_decision wqs feeds energies labors pid? =
        .error "All data lists must be non-empty") ∧
    (∀ w0 ws f0 fs e0 es l0 ls, wqs = w0 :: ws → feeds = f0 :: fs →
      energies = e0 :: es → labors = l0 :: ls →
      (make_decision wqs feeds energies labors pid? =
        .ok (decisionFor w0 ws f0 fs e0 es l0 ls (pid?.getD w0.pond_id))) ∧
      (∀ pid, pid? = some pid →
        (∀ w ∈ wqs, w.pond_id ≠ pid) → (∀ f ∈ feeds, f.pond_id ≠ pid) →
        (∀ e ∈ energies, e.pond_id ≠ pid) → (∀ l ∈ labors, l.pond_id ≠ pid) →
        make_decision wqs feeds energies labors pid? =
          .ok (decisionCore pid w0 f0 e0 l0))) := by
  constructor
  · exact make_decision_empty wqs feeds energies labors pid?
  · intro w0 ws f0 fs e0 es l0 ls hw hf he hl
    subst hw; subst hf; subst he; subst hl
    refine ⟨make_decision_cons w0 ws f0 fs e0 es l0 ls pid?, ?_⟩
    intro pid hpid hnw hnf hne hnl
    subst hpid
    rw [make_decision_cons]
    have hsel : ∀ {α : Type} (pondIdOf : α → ℤ) (hd : α) (l : List α),
        (∀ x ∈ l, pondIdOf x ≠ pid) →
        selectByPond pondIdOf pid hd l = hd := by
      intro α pondIdOf hd l hno
      unfold selectByPond
      rw [List.find?_eq_none.mpr (fun x hx => by simp [hno x hx]), Option.getD_none]
    simp only [decisionFor, Option.getD_some]
    rw [hsel WaterQualityData.pond_id w0 _ hnw,
      hsel FeedData.pond_id f0 _ hnf,
      hsel EnergyData.pond_id e0 _ hne,
      hsel LaborData.pond_id l0 _ hnl]

/-- C10 witness: with an empty water-quality list the call errors; with
non-empty lists and a pond id (99) matching no entry, it returns the
decision computed from the first entries. -/
theorem C10_witness :
    make_decision [] [feedStd] [energyStd] [laborStd] none =
      .error "All data lists must be non-empty" ∧
    make_decision [wgood] [feedStd] [energyStd] [laborStd] (some 99) =
      .ok (decisionCore 99 wgood feedStd energyStd laborStd) := by
  constructor
  · exact (C10_make_decision_total [] [feedStd] [energyStd] [laborStd]
      none).1 (Or.inl rfl)
  · exact ((C10_make_decision_total [wgood] [feedStd] [energyStd] [laborStd]
      (some 99)).2 wgood [] feedStd [] energyStd [] laborStd [] rfl rfl rfl
      rfl).2 99 rfl
      (by intro w hw; simp at hw; simp [hw, wgood])
      (by intro f hf; simp at hf; simp [hf, feedStd])
      (by intro e he; simp at he; simp [he, energyStd])
      (by intro l hl; simp at hl; simp [hl, laborStd])

/-- C2 (amended): the rule-tier urgency equals the clamp to `[0,1]` of
the status weight (excellent 0, good 0.05, fair 0.2, poor 0.4, critical
0.65) plus the DO term `min(0.5, (do_min − DO)/do_min × 0.5)` for
`DO < do_min` with `do_min = 2.2` (the configured
`optimal_dissolved_oxygen`, not the 5.5 the claim states), plus the
ammonia, temperature and efficiency terms exactly as claimed. -/
theorem C2_urgency_formula (wq : WaterQualityData) (energy : EnergyData)
    (labor : LaborData) :
    (score_urgency wq energy labor).1 =
      clamp01 (statusWeight wq.status
        + (if wq.dissolved_oxygen < 11/5 then
            min (1/2) ((11/5 - wq.dissolved_oxygen) / (11/5) * (1/2)) else 0)
        + (if wq.ammonia > 1/5 then
            min (1/2) ((wq.ammonia - 1/5) / (4/5) * (1/2)) else 0)
        + (if wq.temperature < 26 ∨ wq.temperature > 30 then
            min (3/10) ((if wq.temperature < 26 then 26 - wq.temperature
              else wq.temperature - 30) / 10 * (3/10)) else 0)
        + (if energy.efficiency_score < 7/10 then
            min (1/5) ((7/10 - energy.efficiency_score) * (2/5)) else 0)
        + (if labor.efficiency_score < 7/10 then
            min (1/5) ((7/10 - labor.efficiency_score) * (2/5)) else 0)) ∧
      statusWeight .excellent = 0 ∧ statusWeight .good = 1/20 ∧
      statusWeight .fair = 1/5 ∧ statusWeight .poor = 2/5 ∧
      statusWeight .critical = 13/20 := by
  refine ⟨?_, rfl, rfl, rfl, rfl, rfl⟩
  rw [score_urgency_eq]
  have hdo : doBump wq =
      (if wq.dissolved_oxygen < 11/5 then
        min (1/2) ((11/5 - wq.dissolved_oxygen) / (11/5) * (1/2)) else 0) := by
    simp [doBump, agentTargets, optimal_dissolved_oxygen]
  have ham : ammoniaBump wq =
      (if wq.ammonia > 1/5 then
        min (1/2) ((wq.ammonia - 1/5) / (4/5) * (1/2)) else 0) := rfl
  have htm : tempBump wq =
      (if wq.temperature < 26 ∨ wq.temperature > 30 then
        min (3/10) ((if wq.temperature < 26 then 26 - wq.temperature
          else wq.temperature - 30) / 10 * (3/10)) else 0) := by
    simp only [tempBump, agentTargets, optimal_temperature_range]
    by_cases h1 : wq.temperature < 26
    · rw [if_pos (Or.inl h1), if_pos (Or.inl h1), if_pos h1, if_pos h1,
        abs_of_neg (by linarith), neg_sub]
    · by_cases h2 : wq.temperature > 30
      · rw [if_pos (Or.inr h2), if_pos (Or.inr h2), if_neg h1, if_neg h1,
          abs_of_pos (by linarith)]
      · rw [if_neg (by tauto), if_neg (by tauto)]
  have hef : ∀ eff : ℚ, effBump eff =
      (if eff < 7/10 then min (1/5) ((7/10 - eff) * (2/5)) else 0) :=
    fun _ => rfl
  rw [hdo, ham, htm, hef, hef]

/-- C2 counterexample: at `DO = 3.0`, `status = good`, everything else in
range, the code's urgency is `0.05` (no DO contribution, since
`3.0 ≥ 2.2`), while the claimed formula with `optimal_min = 5.5` yields
`0.05 + min(0.5, (5.5−3)/5.5×0.5) = 61/220 ≈ 0.277`. -/
theorem C2_counterexample :
    (score_urgency wdo3 energyStd laborStd).1 = 1/20 ∧
    clamp01 ((1:ℚ)/20 + min (1/2) ((11/2 - 3) / (11/2) * (1/2))) = 61/220 ∧
    ((1:ℚ)/20) ≠ 61/220 := by
  refine ⟨?_, ?_, by norm_num⟩
  · norm_num [score_urgency, wdo3, wgood, energyStd, laborStd, statusWeight,
      agentTargets, optimal_ph_range, optimal_temperature_range,
      optimal_dissolved_oxygen, clamp01]
  · norm_num [clamp01]

theorem rule_confidence_emergency (wq : WaterQualityData) (u : ℚ) :
    rule_confidence wq u .EMERGENCY_RESPONSE = 19/20 := by
  simp [rule_confidence]

theorem rule_confidence_plain (wq : WaterQualityData) (u : ℚ)
    (act : ActionType) (h1 : act ≠ .EMERGENCY_RESPONSE)
    (h2 : ¬((act = .INCREASE_AERATION ∨ act = .WATER_EXCHANGE) ∧
      (wq.dissolved_oxygen < agentTargets.do_min ∨ wq.ammonia > 1/5))) :
    rule_confidence wq u act = max (3/5) (min (17/20) (3/5 + u * (1/4))) := by
  rw [rule_confidence, if_neg h1, if_neg h2]

/-- C7 (amended): in the rule tier, an `EMERGENCY_RESPONSE` decision
reports confidence `0.95 ≥ 0.9`; a decision whose primary action is not
`EMERGENCY_RESPONSE` reports `clamp(0.6 + urgency×0.25, 0.6, 0.85)`
*except* when the action is `INCREASE_AERATION` or `WATER_EXCHANGE` and
the selected sample has `DO < 2.2` or `ammonia > 0.2`, in which case the
code returns `0.9` instead (the exception the claim omits). -/
theorem C7_confidence (w0 : WaterQualityData) (ws : List WaterQualityData)
    (f0 : FeedData) (fs : List FeedData) (e0 : EnergyData)
    (es : List EnergyData) (l0 : LaborData) (ls : List LaborData)
    (pid? : Option ℤ) :
    make_decision (w0 :: ws) (f0 :: fs) (e0 :: es) (l0 :: ls) pid? =
      .ok (decisionFor w0 ws f0 fs e0 es l0 ls (pid?.getD w0.pond_id)) ∧
    ((decisionFor w0 ws f0 fs e0 es l0 ls (pid?.getD w0.pond_id)).primary_action =
        .EMERGENCY_RESPONSE →
      (decisionFor w0 ws f0 fs e0 es l0 ls (pid?.getD w0.pond_id)).confidence =
        19/20 ∧
      (9:ℚ)/10 ≤ (decisionFor w0 ws f0 fs e0 es l0 ls (pid?.getD w0.pond_id)).confidence) ∧
    ((decisionFor w0 ws f0 fs e0 es l0 ls (pid?.getD w0.pond_id)).primary_action ≠
        .EMERGENCY_RESPONSE →
      ¬(((decisionFor w0 ws f0 fs e0 es l0 ls (pid?.getD w0.pond_id)).primary_action =
            .INCREASE_AERATION ∨
          (decisionFor w0 ws f0 fs e0 es l0 ls (pid?.getD w0.pond_id)).primary_action =
            .WATER_EXCHANGE) ∧
        ((selectByPond WaterQualityData.pond_id (pid?.getD w0.pond_id) w0
            (w0 :: ws)).dissolved_oxygen < 11/5 ∨
          (selectByPond WaterQualityData.pond_id (pid?.getD w0.pond_id) w0
            (w0 :: ws)).ammonia > 1/5)) →
      (decisionFor w0 ws f0 fs e0 es l0 ls (pid?.getD w0.pond_id)).confidence =
        max (3/5) (min (17/20) (3/5 +
          (decisionFor w0 ws f0 fs e0 es l0 ls (pid?.getD w0.pond_id)).urgency_score * (1/4)))) := by
  refine ⟨make_decision_cons w0 ws f0 fs e0 es l0 ls pid?, ?_, ?_⟩
  all_goals
    simp only [decisionFor, decisionCore]
  · intro hact
    rw [hact]
    rw [rule_confidence_emergency]
    norm_num
  · intro hact hexc
    rw [rule_confidence_plain _ _ _ hact]
    intro hand
    apply hexc
    refine ⟨hand.1, ?_⟩
    have : agentTargets.do_min = 11/5 := rfl
    rw [this] at hand
    exact hand.2

/-- C7 witness: for the critical fixture sample the primary action is
`EMERGENCY_RESPONSE` and the theorem yields confidence `0.95 ≥ 0.9`. -/
theorem C7_witness :
    (decisionFor wcrit [] feedStd [] energyStd [] laborStd [] 1).confidence =
      19/20 ∧
    (9:ℚ)/10 ≤ (decisionFor wcrit [] feedStd [] energyStd [] laborStd [] 1).confidence := by
  have hact : (decisionFor wcrit [] feedStd [] energyStd [] laborStd
      [] ((some (1:ℤ)).getD wcrit.pond_id)).primary_action =
      .EMERGENCY_RESPONSE := by
    norm_num [decisionFor, decisionCore, selectByPond, List.find?,
      select_actions, wcrit, wgood, feedStd, energyStd, laborStd]
  have h := (C7_confidence wcrit [] feedStd [] energyStd [] laborStd []
    (some 1)).2.1 hact
  have hpid : ((some (1:ℤ)).getD wcrit.pond_id) = 1 := rfl
  rw [hpid] at h
  exact h

theorem good_ne_critical :
    WaterQualityStatus.good ≠ WaterQualityStatus.critical := by
  decide

/-- C7 counterexample: at `ammonia = 0.3` (status good, everything else
in range) the primary action is `WATER_EXCHANGE` — not emergency — yet
the reported confidence is `0.9`, outside the claimed
`clamp(0.6 + urgency×0.25, 0.6, 0.85)` (which would give `201/320`). -/
theorem C7_counterexample :
    make_decision [wam3] [feedStd] [energyStd] [laborStd] (some 1) =
      .ok (decisionFor wam3 [] feedStd [] energyStd [] laborStd [] 1) ∧
    (decisionFor wam3 [] feedStd [] energyStd [] laborStd [] 1).primary_action =
      .WATER_EXCHANGE ∧
    (decisionFor wam3 [] feedStd [] energyStd [] laborStd [] 1).confidence =
      9/10 ∧
    (decisionFor wam3 [] feedStd [] energyStd [] laborStd [] 1).urgency_score =
      9/80 ∧
    max ((3:ℚ)/5) (min (17/20) (3/5 + (9/80) * (1/4))) = 201/320 ∧
    ((9:ℚ)/10) ≠ 201/320 := by
  refine ⟨make_decision_cons wam3 [] feedStd [] energyStd [] laborStd []
    (some 1), ?_, ?_, ?_, by norm_num, by norm_num⟩
  · norm_num [decisionFor, decisionCore, selectByPond, List.find?,
      select_actions, wam3, wgood, feedStd, energyStd, laborStd,
      score_urgency, statusWeight, agentTargets, optimal_ph_range,
      optimal_temperature_range, optimal_dissolved_oxygen, clamp01,
      doBump, ammoniaBump, tempBump, effBump, good_ne_critical,
      min_def, max_def]
  · norm_num [decisionFor, decisionCore, selectByPond, List.find?,
      select_actions, rule_confidence, wam3, wgood, feedStd, energyStd,
      laborStd, score_urgency, statusWeight, agentTargets,
      optimal_ph_range, optimal_temperature_range,
      optimal_dissolved_oxygen, clamp01, doBump, ammoniaBump, tempBump,
      effBump, good_ne_critical, min_def, max_def]
    decide
  · norm_num [decisionFor, decisionCore, selectByPond, List.find?, wam3,
      wgood, feedStd, energyStd, laborStd, score_urgency, statusWeight,
      agentTargets, optimal_ph_range, optimal_temperature_range,
      optimal_dissolved_oxygen, clamp01, doBump, ammoniaBump, tempBump,
      effBump, good_ne_critical, min_def, max_def]

/-- C3 (amended): `urgent_ponds` contains exactly the ponds whose
urgency score is *strictly* greater than `0.7` (the code compares with
`>`, not `≥`); a pond whose urgency is exactly `0.7` is excluded. -/
theorem C3_urgent_ponds (w0 : WaterQualityData) (ws : List WaterQualityData)
    (f0 : FeedData) (fs : List FeedData) (e0 : EnergyData)
    (es : List EnergyData) (l0 : LaborData) (ls : List LaborData)
    (M : MultiPondDecision)
    (hM : make_multi_pond_decisions (w0 :: ws) (f0 :: fs) (e0 :: es)
      (l0 :: ls) = .ok M) (pid : ℤ) :
    pid ∈ M.urgent_ponds ↔
      ∃ e ∈ pondEntries w0 ws f0 fs e0 es l0 ls,
        e.1 = pid ∧ 7/10 < e.2.urgency_score := by
  rw [make_multi_eq] at hM
  injection hM with hM
  subst hM
  rw [prioritize_urgent]
  simp only [List.mem_map, List.mem_filter, decide_eq_true_eq]
  constructor
  · rintro ⟨e, ⟨hed, hu⟩, hfst⟩
    exact ⟨e, hed, hfst, hu⟩
  · rintro ⟨e, hed, hfst, hu⟩
    exact ⟨e, ⟨hed, hu⟩, hfst⟩

/-- C3 witness: the membership characterisation instantiated at the
healthy single-pond fixture and pond id 1. -/
theorem C3_witness :
    1 ∈ (prioritize (pondEntries wgood [] feedStd [] energyStd []
      laborStd [])).urgent_ponds ↔
      ∃ e ∈ pondEntries wgood [] feedStd [] energyStd [] laborStd [],
        e.1 = 1 ∧ 7/10 < e.2.urgency_score :=
  C3_urgent_ponds wgood [] feedStd [] energyStd [] laborStd []
    (prioritize (pondEntries wgood [] feedStd [] energyStd [] laborStd []))
    (make_multi_eq wgood [] feedStd [] energyStd [] laborStd []) 1

/-- The healthy sample with `status = fair` and `ammonia = 1.0`: the
fair weight `0.2` plus the ammonia contribution
`min(0.5, (1.0 − 0.2)/0.8 × 0.5) = 0.5` give urgency exactly `0.7` —
also bit-exactly `0.7` in IEEE doubles (`1.0 − 0.2 == 0.8`,
`0.8/0.8 == 1.0`, `0.2 + 0.5 == 0.7`). -/
def wfair1 : WaterQualityData := { wgood with status := .fair, ammonia := 1 }

/-- C3 counterexample: a fair pond with ammonia `1.0` has urgency
exactly `0.7` (an exact value in floating point as well, see `wfair1`),
and `urgent_ponds` is empty — the claim says a pond at exactly `0.7` is
included. -/
theorem C3_counterexample :
    make_multi_pond_decisions [wfair1] [feedStd] [energyStd] [laborStd] =
      .ok (prioritize (pondEntries wfair1 [] feedStd [] energyStd []
        laborStd [])) ∧
    (decisionFor wfair1 [] feedStd [] energyStd [] laborStd [] 1).urgency_score =
      7/10 ∧
    (prioritize (pondEntries wfair1 [] feedStd [] energyStd []
      laborStd [])).urgent_ponds = [] := by
  have hu : (decisionFor wfair1 [] feedStd [] energyStd [] laborStd []
      1).urgency_score = 7/10 := by
    norm_num [decisionFor, decisionCore, selectByPond, List.find?,
      score_urgency, statusWeight, agentTargets, optimal_ph_range,
      optimal_temperature_range, optimal_dissolved_oxygen, clamp01,
      doBump, ammoniaBump, tempBump, effBump, min_def, max_def, wfair1,
      wgood, feedStd, energyStd, laborStd]
  refine ⟨make_multi_eq wfair1 [] feedStd [] energyStd [] laborStd [], hu, ?_⟩
  rw [prioritize_urgent]
  have hpe : pondEntries wfair1 [] feedStd [] energyStd [] laborStd [] =
      [(1, decisionFor wfair1 [] feedStd [] energyStd [] laborStd [] 1)] := by
    simp [pondEntries, firstOccur_cons, firstOccur_nil, wfair1, wgood]
  rw [hpe]
  norm_num [List.filter, hu]

/-- The healthy sample assigned to pond 2. -/
def wgood2 : WaterQualityData := { wgood with pond_id := 2 }

/-- C5: for non-empty input lists with distinct pond ids, the values of
`pond_priorities` are exactly `1..N` in rank order (no duplicates, since
`range'` enumerates consecutively) and every evaluated pond id appears
as a key. -/
theorem C5_priorities_bijection (w0 : WaterQualityData)
    (ws : List WaterQualityData) (f0 : FeedData) (fs : List FeedData)
    (e0 : EnergyData) (es : List EnergyData) (l0 : LaborData)
    (ls : List LaborData)
    (hnd : ((w0 :: ws).map WaterQualityData.pond_id).Nodup) :
    ∃ M, make_multi_pond_decisions (w0 :: ws) (f0 :: fs) (e0 :: es)
        (l0 :: ls) = .ok M ∧
      M.pond_priorities.map Prod.snd = List.range' 1 (w0 :: ws).length ∧
      ∀ pid ∈ (w0 :: ws).map WaterQualityData.pond_id,
        ∃ r, findVal pid M.pond_priorities = some r := by
  have hkeys : (pondEntries w0 ws f0 fs e0 es l0 ls).map Prod.fst =
      (w0 :: ws).map WaterQualityData.pond_id := by
    rw [pondEntries, List.map_map, firstOccur_eq_self hnd]
    simp [Function.comp]
  refine ⟨prioritize (pondEntries w0 ws f0 fs e0 es l0 ls),
    make_multi_eq w0 ws f0 fs e0 es l0 ls, ?_, ?_⟩
  · rw [prioritize_priorities_values, pondEntries, List.length_map,
      firstOccur_eq_self hnd, List.length_map]
  · intro pid hpid
    apply findVal_isSome_of_mem_keys
    rw [(prioritize_priorities_keys (pondEntries w0 ws f0 fs e0 es l0
      ls)).mem_iff, hkeys]
    exact hpid

/-- C5 witness: the bijection property at a concrete two-pond snapshot
(ids 1 and 2, distinct). -/
theorem C5_witness :
    ∃ M, make_multi_pond_decisions [wcrit, wgood2] [feedStd] [energyStd]
        [laborStd] = .ok M ∧
      M.pond_priorities.map Prod.snd =
        List.range' 1 ([wcrit, wgood2] : List WaterQualityData).length ∧
      ∀ pid ∈ ([wcrit, wgood2].map WaterQualityData.pond_id),
        ∃ r, findVal pid M.pond_priorities = some r :=
  C5_priorities_bijection wcrit [wgood2] feedStd [] energyStd [] laborStd []
    (by decide)

/-- C6: when the total urgency over the evaluated ponds is positive,
`resource_allocation` maps each pond key `"pond_<id>"` to its urgency
divided by the total, and the shares sum to exactly 1 (hence within
`1e-9`); when every pond's urgency is 0, the map is empty. -/
theorem C6_resource_allocation (w0 : WaterQualityData)
    (ws : List WaterQualityData) (f0 : FeedData) (fs : List FeedData)
    (e0 : EnergyData) (es : List EnergyData) (l0 : LaborData)
    (ls : List LaborData) (M : MultiPondDecision)
    (hM : make_multi_pond_decisions (w0 :: ws) (f0 :: fs) (e0 :: es)
      (l0 :: ls) = .ok M) :
    (0 < totalUrgency (pondEntries w0 ws f0 fs e0 es l0 ls) →
      M.resource_allocation = (pondEntries w0 ws f0 fs e0 es l0 ls).map
        (fun e => ("pond_" ++ toString e.1,
          e.2.urgency_score / totalUrgency (pondEntries w0 ws f0 fs e0 es l0 ls))) ∧
      (M.resource_allocation.map Prod.snd).sum = 1) ∧
    ((∀ e ∈ pondEntries w0 ws f0 fs e0 es l0 ls, e.2.urgency_score = 0) →
      M.resource_allocation = []) := by
  rw [make_multi_eq] at hM
  injection hM with hM
  subst hM
  constructor
  · intro ht
    have halloc := prioritize_alloc (pondEntries w0 ws f0 fs e0 es l0 ls)
    rw [if_pos ht] at halloc
    refine ⟨halloc, ?_⟩
    rw [halloc]
    have hmm : ((pondEntries w0 ws f0 fs e0 es l0 ls).map
        (fun e => ("pond_" ++ toString e.1, e.2.urgency_score /
          totalUrgency (pondEntries w0 ws f0 fs e0 es l0 ls)))).map Prod.snd =
        ((pondEntries w0 ws f0 fs e0 es l0 ls).map
          (fun e => e.2.urgency_score)).map
          (fun x => x / totalUrgency (pondEntries w0 ws f0 fs e0 es l0 ls)) := by
      simp [List.map_map, Function.comp]
    rw [hmm, list_sum_div]
    exact div_self (ne_of_gt ht)
  · intro h0
    have ht : totalUrgency (pondEntries w0 ws f0 fs e0 es l0 ls) = 0 := by
      rw [totalUrgency]
      apply List.sum_eq_zero
      intro x hx
      simp only [List.mem_map] at hx
      obtain ⟨e, he, rfl⟩ := hx
      exact h0 e he
    rw [prioritize_alloc, if_neg (by rw [ht]; exact lt_irrefl 0)]

/-- C6 witness: at the critical single-pond fixture the total urgency is
`0.7 > 0` and the shares sum to exactly 1. -/
theorem C6_witness :
    ((prioritize (pondEntries wcrit [] feedStd [] energyLow []
      laborStd [])).resource_allocation.map Prod.snd).sum = 1 := by
  have hu : (decisionFor wcrit [] feedStd [] energyLow [] laborStd []
      1).urgency_score = 7/10 := by
    norm_num [decisionFor, decisionCore, selectByPond, List.find?,
      score_urgency, statusWeight, agentTargets, optimal_ph_range,
      optimal_temperature_range, optimal_dissolved_oxygen, clamp01,
      doBump, ammoniaBump, tempBump, effBump, min_def, max_def, wcrit,
      wgood, feedStd, energyLow, energyStd, laborStd]
  have hpe : pondEntries wcrit [] feedStd [] energyLow [] laborStd [] =
      [(1, decisionFor wcrit [] feedStd [] energyLow [] laborStd [] 1)] := by
    simp [pondEntries, firstOccur_cons, firstOccur_nil, wcrit, wgood]
  have htot : 0 < totalUrgency (pondEntries wcrit [] feedStd []
      energyLow [] laborStd []) := by
    rw [hpe, totalUrgency]
    norm_num [hu]
  exact ((C6_resource_allocation wcrit [] feedStd [] energyLow []
    laborStd []
    (prioritize (pondEntries wcrit [] feedStd [] energyLow [] laborStd []))
    (make_multi_eq wcrit [] feedStd [] energyLow [] laborStd [])).1 htot).2

/-- C4 (amended): ranks are the 1-based positions under a *stable*
descending sort by urgency: strictly larger urgency always means a
smaller rank, but ties are broken by the order the pond ids appear in
the input water-quality list (Python's `sorted` is stable and the code
passes no tie-breaking key) — not by ascending pond id. -/
theorem C4_rank_order (w0 : WaterQualityData) (ws : List WaterQualityData)
    (f0 : FeedData) (fs : List FeedData) (e0 : EnergyData)
    (es : List EnergyData) (l0 : LaborData) (ls : List LaborData)
    (hnd : ((w0 :: ws).map WaterQualityData.pond_id).Nodup) (p q : ℤ)
    (hp : p ∈ (w0 :: ws).map WaterQualityData.pond_id)
    (hq : q ∈ (w0 :: ws).map WaterQualityData.pond_id)
    (hcond : (decisionFor w0 ws f0 fs e0 es l0 ls q).urgency_score <
        (decisionFor w0 ws f0 fs e0 es l0 ls p).urgency_score ∨
      ((decisionFor w0 ws f0 fs e0 es l0 ls p).urgency_score =
        (decisionFor w0 ws f0 fs e0 es l0 ls q).urgency_score ∧
       posOf p ((w0 :: ws).map WaterQualityData.pond_id) <
        posOf q ((w0 :: ws).map WaterQualityData.pond_id))) :
    ∃ M rp rq, make_multi_pond_decisions (w0 :: ws) (f0 :: fs) (e0 :: es)
        (l0 :: ls) = .ok M ∧
      findVal p M.pond_priorities = some rp ∧
      findVal q M.pond_priorities = some rq ∧ rp < rq := by
  have hg : Function.Injective
      (fun pid => (pid, decisionFor w0 ws f0 fs e0 es l0 ls pid)) :=
    fun a b h => congrArg Prod.fst h
  have hd : pondEntries w0 ws f0 fs e0 es l0 ls =
      ((w0 :: ws).map WaterQualityData.pond_id).map
        (fun pid => (pid, decisionFor w0 ws f0 fs e0 es l0 ls pid)) := by
    rw [pondEntries, firstOccur_eq_self hnd]
  have hdk : ((pondEntries w0 ws f0 fs e0 es l0 ls).map Prod.fst) =
      (w0 :: ws).map WaterQualityData.pond_id := by
    rw [hd, List.map_map]
    simp [Function.comp]
  have hnd2 : ((pondEntries w0 ws f0 fs e0 es l0 ls).map Prod.fst).Nodup := by
    rw [hdk]; exact hnd
  have hpmem : (p, decisionFor w0 ws f0 fs e0 es l0 ls p) ∈
      pondEntries w0 ws f0 fs e0 es l0 ls := by
    rw [hd]
    exact List.mem_map_of_mem _ hp
  have hqmem : (q, decisionFor w0 ws f0 fs e0 es l0 ls q) ∈
      pondEntries w0 ws f0 fs e0 es l0 ls := by
    rw [hd]
    exact List.mem_map_of_mem _ hq
  have hcond2 : (q, decisionFor w0 ws f0 fs e0 es l0 ls q).2.urgency_score <
      (p, decisionFor w0 ws f0 fs e0 es l0 ls p).2.urgency_score ∨
    ((p, decisionFor w0 ws f0 fs e0 es l0 ls p).2.urgency_score =
      (q, decisionFor w0 ws f0 fs e0 es l0 ls q).2.urgency_score ∧
     posOf (p, decisionFor w0 ws f0 fs e0 es l0 ls p)
        (pondEntries w0 ws f0 fs e0 es l0 ls) <
      posOf (q, decisionFor w0 ws f0 fs e0 es l0 ls q)
        (pondEntries w0 ws f0 fs e0 es l0 ls)) := by
    rcases hcond with h | ⟨h1, h2⟩
    · exact Or.inl h
    · refine Or.inr ⟨h1, ?_⟩
      rw [hd, posOf_map_inj hg p, posOf_map_inj hg q]
      exact h2
  obtain ⟨ra, rb, h1, h2, h3⟩ :=
    prioritize_rank (pondEntries w0 ws f0 fs e0 es l0 ls) hnd2 _ _
      hpmem hqmem hcond2
  exact ⟨prioritize (pondEntries w0 ws f0 fs e0 es l0 ls), ra, rb,
    make_multi_eq w0 ws f0 fs e0 es l0 ls, h1, h2, h3⟩

/-- C4 witness: two ponds with ids 1 (critical, urgency 0.7) and 2
(good, urgency 0.1): pond 1's strictly larger urgency gives it the
smaller rank. -/
theorem C4_witness :
    ∃ M rp rq, make_multi_pond_decisions [wcrit, wgood2] [feedStd]
        [energyLow] [laborStd] = .ok M ∧
      findVal 1 M.pond_priorities = some rp ∧
      findVal 2 M.pond_priorities = some rq ∧ rp < rq :=
  C4_rank_order wcrit [wgood2] feedStd [] energyLow [] laborStd []
    (by decide) 1 2 (by decide) (by decide)
    (Or.inl (by
      norm_num [decisionFor, decisionCore, selectByPond, List.find?,
        score_urgency, statusWeight, agentTargets, optimal_ph_range,
        optimal_temperature_range, optimal_dissolved_oxygen, clamp01,
        doBump, ammoniaBump, tempBump, effBump, min_def, max_def, wcrit,
        wgood, wgood2, feedStd, energyLow, energyStd, laborStd]))

/-- C4 counterexample: two ponds with equal urgency, appearing in the
input in the order 2, 1.  The claim says the lower pond id (1) must get
the smaller rank; the code's stable sort keeps the input order, so pond
2 gets rank 1 and pond 1 gets rank 2. -/
theorem C4_counterexample :
    ∃ M, make_multi_pond_decisions [wgood2, wgood] [feedStd] [energyStd]
        [laborStd] = .ok M ∧
      (decisionFor wgood2 [wgood] feedStd [] energyStd [] laborStd []
        2).urgency_score =
        (decisionFor wgood2 [wgood] feedStd [] energyStd [] laborStd []
          1).urgency_score ∧
      findVal 2 M.pond_priorities = some 1 ∧
      findVal 1 M.pond_priorities = some 2 := by
  have hnd : (([wgood2, wgood] : List WaterQualityData).map
      WaterQualityData.pond_id).Nodup := by decide
  have hg : Function.Injective (fun pid =>
      (pid, decisionFor wgood2 [wgood] feedStd [] energyStd [] laborStd []
        pid)) :=
    fun a b h => congrArg Prod.fst h
  have hdm : pondEntries wgood2 [wgood] feedStd [] energyStd [] laborStd [] =
      (([wgood2, wgood] : List WaterQualityData).map
        WaterQualityData.pond_id).map
        (fun pid => (pid, decisionFor wgood2 [wgood] feedStd [] energyStd
          [] laborStd [] pid)) := by
    rw [pondEntries, firstOccur_eq_self hnd]
  have hnd2 : ((pondEntries wgood2 [wgood] feedStd [] energyStd []
      laborStd []).map Prod.fst).Nodup := by
    rw [hdm, List.map_map]
    simpa [Function.comp] using hnd
  have hequal : (decisionFor wgood2 [wgood] feedStd [] energyStd []
      laborStd [] 2).urgency_score =
      (decisionFor wgood2 [wgood] feedStd [] energyStd [] laborStd []
        1).urgency_score := by
    norm_num [decisionFor, decisionCore, selectByPond, List.find?,
      score_urgency, statusWeight, agentTargets, optimal_ph_range,
      optimal_temperature_range, optimal_dissolved_oxygen, clamp01,
      doBump, ammoniaBump, tempBump, effBump, min_def, max_def, wgood,
      wgood2, feedStd, energyStd, laborStd]
  have hmem2 : ((2 : ℤ), decisionFor wgood2 [wgood] feedStd [] energyStd
      [] laborStd [] 2) ∈
      pondEntries wgood2 [wgood] feedStd [] energyStd [] laborStd [] := by
    rw [hdm]
    exact List.mem_map_of_mem _ (by decide)
  have hmem1 : ((1 : ℤ), decisionFor wgood2 [wgood] feedStd [] energyStd
      [] laborStd [] 1) ∈
      pondEntries wgood2 [wgood] feedStd [] energyStd [] laborStd [] := by
    rw [hdm]
    exact List.mem_map_of_mem _ (by decide)
  have hpos : posOf ((2 : ℤ), decisionFor wgood2 [wgood] feedStd []
      energyStd [] laborStd [] 2)
      (pondEntries wgood2 [wgood] feedStd [] energyStd [] laborStd []) <
      posOf ((1 : ℤ), decisionFor wgood2 [wgood] feedStd [] energyStd []
        laborStd [] 1)
      (pondEntries wgood2 [wgood] feedStd [] energyStd [] laborStd []) := by
    rw [hdm, posOf_map_inj hg, posOf_map_inj hg]
    decide
  obtain ⟨ra, rb, h1, h2, h3⟩ :=
    prioritize_rank (pondEntries wgood2 [wgood] feedStd [] energyStd []
      laborStd []) hnd2 _ _ hmem2 hmem1 (Or.inr ⟨hequal, hpos⟩)
  have hlen : (pondEntries wgood2 [wgood] feedStd [] energyStd []
      laborStd []).length = 2 := by
    rw [hdm]
    rfl
  have hvals : (prioritize (pondEntries wgood2 [wgood] feedStd []
      energyStd [] laborStd [])).pond_priorities.map Prod.snd =
      [1, 2] := by
    rw [prioritize_priorities_values, hlen]
    rfl
  have hra : ra ∈ ([1, 2] : List ℕ) := by
    rw [← hvals]
    exact findVal_mem_snd h1
  have hrb : rb ∈ ([1, 2] : List ℕ) := by
    rw [← hvals]
    exact findVal_mem_snd h2
  simp only [List.mem_cons, List.mem_singleton, List.not_mem_nil,
    or_false] at hra hrb
  have hvra : ra = 1 := by rcases hra with h | h <;> rcases hrb with h' | h' <;> omega
  have hvrb : rb = 2 := by rcases hra with h | h <;> rcases hrb with h' | h' <;> omega
  refine ⟨prioritize (pondEntries wgood2 [wgood] feedStd [] energyStd []
    laborStd []),
    make_multi_eq wgood2 [wgood] feedStd [] energyStd [] laborStd [],
    hequal, ?_, ?_⟩
  · rw [← hvra]
    exact h1
  · rw [← hvrb]
    exact h2

theorem inferAndFallback_iff (m : DashModels) (X : List ℚ)
    (sensors : List (String × SVal)) :
    ((inferAndFallback m X sensors).2.2.2 = true ↔
      (doValOf sensors = none ∨ ∃ q, doValOf sensors = some q ∧ q ≤ 0)) ∧
    ((inferAndFallback m X sensors).2.2.2 = true →
      (inferAndFallback m X sensors).1.do_out = m.knnM X) ∧
    ((inferAndFallback m X sensors).2.2.2 = false →
      (inferAndFallback m X sensors).1.do_out = (m.rfM X).1) := by
  cases hdo : doValOf sensors with
  | none => simp [inferAndFallback, hdo]
  | some q =>
    by_cases hq : q ≤ 0 <;> simp [inferAndFallback, hdo, hq]

/-- C1 (amended): on the predict-all pipeline, `fallback_used` is true
iff the sample's `DO(mg/L)` field is absent, present but not a number
(`float(...)` raises), or a number `≤ 0` — "absent or ≤ 0" alone is not
an iff, because a present non-numeric value also triggers the fallback.
When the fallback is used the reported DO is the KNN estimate, otherwise
it is the multi-output regressor's DO output. -/
theorem C1_fallback_iff (m : DashModels) (input : List (String × SVal))
    (fs : List String) (X : List ℚ) (hf : m.rfFeatures = some fs)
    (hX : buildX fs input = .ok X) :
    ∃ resp, dashboard_predict_all m false input = ⟨.ok resp, true, true⟩ ∧
      (resp.knn_fallback_used = true ↔
        (doValOf input = none ∨ ∃ q, doValOf input = some q ∧ q ≤ 0)) ∧
      (resp.knn_fallback_used = true → resp.rf.do_out = m.knnM X) ∧
      (resp.knn_fallback_used = false → resp.rf.do_out = (m.rfM X).1) := by
  obtain ⟨hiff, hknn, hrf⟩ := inferAndFallback_iff m X input
  refine ⟨{ rf := (inferAndFallback m X input).1,
            svm := { cls := (inferAndFallback m X input).2.1,
                     probabilities := m.svmProb.map (fun f => f X),
                     label := none },
            knn := (inferAndFallback m X input).2.2.1,
            knn_fallback_used := (inferAndFallback m X input).2.2.2 },
    ?_, hiff, hknn, hrf⟩
  simp [dashboard_predict_all, hf, hX, inferAndFallback]

def mStd : DashModels :=
  { rfM := fun _ => (4, 7, 1/10), svmM := fun _ => 0, svmProb := none,
    knnM := fun _ => 61/10, rfFeatures := some ["Temperature"] }

/-- An ingestion body with no `DO(mg/L)` field. -/
def inputNoDO : List (String × SVal) := [("Temperature", SVal.num 25)]

/-- An ingestion body whose `DO(mg/L)` field is present but not a
number. -/
def inputBadDO : List (String × SVal) :=
  [("Temperature", SVal.num 25), ("DO(mg/L)", SVal.nonnum "sensor-error")]

theorem buildX_mStd_NoDO : buildX ["Temperature"] inputNoDO = .ok [25] := rfl

theorem buildX_mStd_BadDO : buildX ["Temperature"] inputBadDO = .ok [25] := rfl

/-- C1 witness: the amended equivalence at a concrete model and a
sample with no DO field. -/
theorem C1_witness :
    ∃ resp, dashboard_predict_all mStd false inputNoDO =
        ⟨.ok resp, true, true⟩ ∧
      (resp.knn_fallback_used = true ↔
        (doValOf inputNoDO = none ∨
          ∃ q, doValOf inputNoDO = some q ∧ q ≤ 0)) ∧
      (resp.knn_fallback_used = true → resp.rf.do_out = mStd.knnM [25]) ∧
      (resp.knn_fallback_used = false → resp.rf.do_out = (mStd.rfM [25]).1) :=
  C1_fallback_iff mStd inputNoDO ["Temperature"] [25] rfl buildX_mStd_NoDO

/-- C1 counterexample: a sample whose `DO(mg/L)` field is present but
non-numeric gets `fallback_used = true`, refuting the claimed iff with
"absent or ≤ 0": the field is neither absent nor a number `≤ 0`. -/
theorem C1_counterexample :
    ∃ resp, (dashboard_predict_all mStd false inputBadDO).result =
        .ok resp ∧
      resp.knn_fallback_used = true ∧
      findVal "DO(mg/L)" inputBadDO = some (SVal.nonnum "sensor-error") ∧
      ∀ q : ℚ, findVal "DO(mg/L)" inputBadDO ≠ some (SVal.num q) := by
  refine ⟨{ rf := { do_out := 61/10, ph := 7, ammonia := 1/10,
                    note := some "DO estimated via KNN fallback (sensor missing or invalid)" },
            svm := { cls := 0, probabilities := none, label := none },
            knn := 61/10, knn_fallback_used := true },
    rfl, rfl, rfl, ?_⟩
  intro q h
  simp [inputBadDO, findVal] at h

/-- C8 (amended): on the `_process_sample_and_persist` ingestion path a
failed history append is swallowed — the call still returns its
prediction tuple and still schedules the broadcast; but on the
`/dashboard/predict_all` path the append is not guarded, so when it
fails the endpoint raises (no response) and the broadcast is never
scheduled. -/
theorem C8_append_failure (m : DashModels)
    (sensors : List (String × SVal)) (fs : List String) (X : List ℚ)
    (hf : m.rfFeatures = some fs) (hX : buildX fs sensors = .ok X) :
    (∃ r, (process_sample_and_persist m true sensors).result = .ok r) ∧
    (process_sample_and_persist m true sensors).broadcastScheduled = true ∧
    (process_sample_and_persist m true sensors).dbSaved = false ∧
    ∀ (m2 : DashModels) (input2 : List (String × SVal)),
      (dashboard_predict_all m2 true input2).broadcastScheduled = false ∧
      (dashboard_predict_all m2 true input2).dbSaved = false ∧
      ∀ r, (dashboard_predict_all m2 true input2).result ≠ .ok r := by
  refine ⟨?_, ?_, ?_, ?_⟩
  · simp only [process_sample_and_persist, hf, hX]
    exact ⟨_, rfl⟩
  · simp [process_sample_and_persist, hf, hX]
  · simp [process_sample_and_persist, hf, hX]
  · intro m2 input2
    cases hf2 : m2.rfFeatures with
    | none => simp [dashboard_predict_all, hf2]
    | some fs2 =>
      cases hX2 : buildX fs2 input2 with
      | error e => simp [dashboard_predict_all, hf2, hX2]
      | ok X2 => simp [dashboard_predict_all, hf2, hX2]

/-- C8 witness: the amended statement at a concrete model and sample. -/
theorem C8_witness :
    (∃ r, (process_sample_and_persist mStd true inputNoDO).result = .ok r) ∧
    (process_sample_and_persist mStd true inputNoDO).broadcastScheduled =
      true ∧
    (process_sample_and_persist mStd true inputNoDO).dbSaved = false ∧
    ∀ (m2 : DashModels) (input2 : List (String × SVal)),
      (dashboard_predict_all m2 true input2).broadcastScheduled = false ∧
      (dashboard_predict_all m2 true input2).dbSaved = false ∧
      ∀ r, (dashboard_predict_all m2 true input2).result ≠ .ok r :=
  C8_append_failure mStd inputNoDO ["Temperature"] [25] rfl buildX_mStd_NoDO

/-- C8 counterexample: on `/dashboard/predict_all`, with a valid sample,
a failing append makes the endpoint raise and skip the broadcast —
while the identical call with a healthy database returns a response.
The claim that an append failure never propagates is false. -/
theorem C8_counterexample :
    (dashboard_predict_all mStd true inputNoDO).result =
      .error .persistenceFailure ∧
    (dashboard_predict_all mStd true inputNoDO).broadcastScheduled = false ∧
    (dashboard_predict_all mStd true inputNoDO).dbSaved = false ∧
    ∃ resp, (dashboard_predict_all mStd false inputNoDO).result =
      .ok resp := by
  exact ⟨rfl, rfl, rfl,
    ⟨{ rf := { do_out := 61/10, ph := 7, ammonia := 1/10,
               note := some "DO estimated via KNN fallback (sensor missing or invalid)" },
       svm := { cls := 0, probabilities := none, label := none },
       knn := 61/10, knn_fallback_used := true }, rfl⟩⟩
